import Mathlib

/-!
Shallow embedding of the PortfolioPal backend:
`src/backend/main.py`, `src/backend/database.py`, `src/backend/schemas.py`
and the standalone app `src/main.py`.

Modelling conventions:
* `datetime.utcnow()` is an integer timestamp in seconds, passed explicitly
  to every handler as `now`; a handler uses one timestamp for its whole run.
* MongoDB ObjectIds are modelled by a per-store counter `nextId`:
  `create_document` assigns the next id exactly as `insert_one` assigns a
  fresh ObjectId, and the id round-trips through the JWT payload as the
  `str(ObjectId)` / `ObjectId(str)` pair does in the code.
* passlib bcrypt hash strings are modelled by `HashStr`: either a
  well-formed bcrypt hash, from which passlib recovers the salt and digest,
  or a string passlib cannot identify, on which `CryptContext.verify`
  raises `UnknownHashError`.  The digest is an idealized collision-free
  function of (password, salt).
* python-jose JWTs are modelled symbolically: a structurally valid token is
  a payload together with a signature value, and a signature verifies under
  a secret exactly when it was produced by `hmacSign` from that same secret
  and payload (ideal MAC).  `jwt.decode` rejects an `exp` claim strictly in
  the past, matching jose's `exp < now` check with zero leeway.
* Randomness (bcrypt salts, `secrets.token_urlsafe` values) and the request
  environment (`request.client.host`) are explicit parameters.
-/

namespace PortfolioPal

/-- Python `str.lower()` as used on emails in the handlers: per-character
ASCII case folding. -/
def pyLower (s : String) : String :=
  ⟨s.data.map Char.toLower⟩

/-! ## Credential service (passlib bcrypt context) -/

/-- A stored password-hash string, as classified by passlib's identify step:
either a well-formed bcrypt hash (salt and digest recoverable from the
string) or a string that passlib cannot identify as any configured scheme. -/
inductive HashStr where
  | bcrypt (salt : Nat) (digest : String)
  | unidentified (raw : String)
deriving Repr, DecidableEq

/-- Idealized bcrypt digest: deterministic in (password, salt) and
collision-free for a fixed salt. -/
def bcryptDigest (password : String) (salt : Nat) : String :=
  toString salt ++ "$" ++ password

/-- Exception raised by passlib when the hash string cannot be identified. -/
inductive PasslibError where
  | unknownHash
deriving Repr, DecidableEq

/-- `verify_password` (src/backend/main.py line 41): `pwd_context.verify`.
passlib recomputes the digest with the hash's salt and compares; on a hash
string it cannot identify it raises `UnknownHashError` instead of returning. -/
def verify_password (plain_password : String) (hashed_password : HashStr) :
    Except PasslibError Bool :=
  match hashed_password with
  | .bcrypt salt digest => .ok (bcryptDigest plain_password salt == digest)
  | .unidentified _ => .error .unknownHash

/-- `get_password_hash` (line 45): `pwd_context.hash(password)`; the salt is
fresh per call and passed explicitly. -/
def get_password_hash (password : String) (salt : Nat) : HashStr :=
  .bcrypt salt (bcryptDigest password salt)

/-! ## Token service (python-jose, HS256) -/

/-- The claims the backend reads from a decoded JWT payload. -/
structure JwtPayload where
  user_id : Option Nat := none
  email : Option String := none
  exp : Option Int := none
deriving Repr, DecidableEq

/-- Symbolic HMAC-SHA256: a signature value verifies for a payload under a
secret iff it was produced from exactly that payload and that secret. -/
def hmacSign (secret : String) (payload : JwtPayload) : String × JwtPayload :=
  (secret, payload)

/-- A bearer token as presented by a client: either not parseable as a JWT
at all, or a payload with an attached (possibly forged) signature value. -/
inductive RawToken where
  | malformed (raw : String)
  | signed (payload : JwtPayload) (sig : String × JwtPayload)
deriving Repr, DecidableEq

inductive JWTError where
  | invalidToken
  | expiredSignature
deriving Repr, DecidableEq

/-- `jwt.encode(claims, secret, algorithm="HS256")`. -/
def jwtEncode (secret : String) (payload : JwtPayload) : RawToken :=
  .signed payload (hmacSign secret payload)

/-- `jwt.decode(token, secret, algorithms=["HS256"])`: structural parse,
signature check, then `exp` validation (expired iff `exp < now`, zero
leeway); every failure raises a `JWTError`. -/
def jwtDecode (secret : String) (now : Int) (token : RawToken) :
    Except JWTError JwtPayload :=
  match token with
  | .malformed _ => .error .invalidToken
  | .signed payload sig =>
    if sig = hmacSign secret payload then
      match payload.exp with
      | some e => if e < now then .error .expiredSignature else .ok payload
      | none => .ok payload
    else .error .invalidToken

/-! ## Configuration (src/backend/main.py lines 22-25) -/

structure Config where
  SECRET_KEY : String
  ACCESS_TOKEN_EXPIRE_MINUTES : Int
  PRIMARY_ADMIN_EMAIL : String
deriving Repr, DecidableEq

/-- Startup configuration: `PRIMARY_ADMIN_EMAIL = os.getenv(...).lower()`. -/
def loadConfig (secretEnv : String) (expireMinutesEnv : Int) (adminEmailEnv : String) :
    Config :=
  { SECRET_KEY := secretEnv
    ACCESS_TOKEN_EXPIRE_MINUTES := expireMinutesEnv
    PRIMARY_ADMIN_EMAIL := pyLower adminEmailEnv }

/-- `create_access_token(data, expires_delta)` (lines 49-54).  Both callers
pass `data = {"user_id": user_id, "email": email}` and omit `expires_delta`,
so the expiry is `now + ACCESS_TOKEN_EXPIRE_MINUTES` minutes. -/
def create_access_token (cfg : Config) (now : Int) (user_id : Nat) (email : String)
    (expires_delta : Option Int) : RawToken :=
  let expire := now + expires_delta.getD (cfg.ACCESS_TOKEN_EXPIRE_MINUTES * 60)
  jwtEncode cfg.SECRET_KEY { user_id := some user_id, email := some email, exp := some expire }

/-! ## Document store (src/backend/database.py), typed per collection -/

structure User where
  id : Nat
  email : String
  password : HashStr
  name : String
  created_at : Int
  updated_at : Int
deriving Repr, DecidableEq

structure ResetRecord where
  id : Nat
  user_id : Nat
  token : String
  expires_at : Option Int
  created_at : Int
  updated_at : Int
deriving Repr, DecidableEq

structure Activity where
  id : Nat
  user_id : Nat
  type : String
  ip : Option String
  created_at : Int
  updated_at : Int
deriving Repr, DecidableEq

/-- The three collections used by the auth flow, in insertion order (Mongo
natural order), plus the fresh-id counter. -/
structure Store where
  users : List User
  activity : List Activity
  passwordreset : List ResetRecord
  nextId : Nat
deriving Repr, DecidableEq

/-- `create_document("user", data)` (database.py lines 32-36): stamps
`created_at` / `updated_at` with now, inserts, returns the new id. -/
def create_user_document (s : Store) (now : Int) (email : String) (password : HashStr)
    (name : String) : Nat × Store :=
  (s.nextId,
   { s with
     users := s.users ++ [{ id := s.nextId, email := email, password := password,
                            name := name, created_at := now, updated_at := now }]
     nextId := s.nextId + 1 })

/-- `create_document("activity", data)` for the signup/login log entries. -/
def create_activity_document (s : Store) (now : Int) (user_id : Nat) (type : String)
    (ip : Option String) : Nat × Store :=
  (s.nextId,
   { s with
     activity := s.activity ++ [{ id := s.nextId, user_id := user_id, type := type,
                                  ip := ip, created_at := now, updated_at := now }]
     nextId := s.nextId + 1 })

/-- `create_document("passwordreset", data)` for forgot-password records. -/
def create_reset_document (s : Store) (now : Int) (user_id : Nat) (token : String)
    (expires_at : Int) : Nat × Store :=
  (s.nextId,
   { s with
     passwordreset := s.passwordreset ++
       [{ id := s.nextId, user_id := user_id, token := token,
          expires_at := some expires_at, created_at := now, updated_at := now }]
     nextId := s.nextId + 1 })

/-- Mongo `update_one({"_id": id}, {"$set": {"password": hashed,
"updated_at": now}})` (src/backend/main.py line 127): updates the first
matching document only. -/
def update_user_password : List User → Nat → HashStr → Int → List User
  | [], _, _, _ => []
  | u :: rest, uid, hashed, now =>
    if u.id == uid then { u with password := hashed, updated_at := now } :: rest
    else u :: update_user_password rest uid hashed now

/-! ## Auth flow controller (src/backend/main.py) -/

/-- `fastapi.HTTPException(status_code, detail)`. -/
structure HTTPException where
  status_code : Nat
  detail : String
deriving Repr, DecidableEq

/-- The single exception raised for every session-verification failure
(src/backend/main.py line 58). -/
def credentials_exception : HTTPException :=
  { status_code := 401, detail := "Could not validate credentials" }

/-- `get_current_user` (lines 57-72): decode the bearer token, read the
`user_id` and `email` claims, load the user; every failure raises the one
`credentials_exception`. -/
def get_current_user (cfg : Config) (now : Int) (s : Store) (token : RawToken) :
    Except HTTPException User :=
  match jwtDecode cfg.SECRET_KEY now token with
  | .error _ => .error credentials_exception
  | .ok payload =>
    match payload.user_id, payload.email with
    | some uid, some _ =>
      match s.users.find? (fun u => u.id == uid) with
      | some user => .ok user
      | none => .error credentials_exception
    | _, _ => .error credentials_exception

/-- `is_admin` (lines 75-76). -/
def is_admin (cfg : Config) (user : User) : Bool :=
  pyLower user.email == cfg.PRIMARY_ADMIN_EMAIL

/-- Request body of `POST /api/auth/signup` (schemas.py `UserCreate`);
pydantic enforces `EmailStr` and `min_length=8` before the handler runs. -/
structure UserCreate where
  email : String
  password : String
  name : Option String
deriving Repr, DecidableEq

/-- Response body of signup/login (schemas.py `Token`). -/
structure TokenResponse where
  access_token : RawToken
  token_type : String
  csrf_token : String
deriving Repr, DecidableEq

/-- Request body of `POST /api/auth/reset-password` (schemas.py
`ResetPasswordRequest`); pydantic enforces `min_length=8` on the password. -/
structure ResetPasswordRequest where
  token : String
  new_password : String
deriving Repr, DecidableEq

/-- A necessary condition of pydantic's `EmailStr` validation, which the
HTTP layer applies to the request body before the handler runs. -/
def emailShapeOk (email : String) : Bool :=
  email.data.contains '@'

/-- `signup` (lines 80-90).  `salt` is bcrypt's fresh salt for this call,
`csrf` the fresh `secrets.token_urlsafe(16)`, `client_host` is
`request.client.host`. -/
def signup (cfg : Config) (now : Int) (salt : Nat) (csrf : String) (client_host : String)
    (s : Store) (payload : UserCreate) : Except HTTPException (TokenResponse × Store) :=
  match s.users.find? (fun u => u.email == (pyLower payload.email)) with
  | some _ => .error { status_code := 400, detail := "Email already registered" }
  | none =>
    let hashed := get_password_hash payload.password salt
    let created := create_user_document s now (pyLower payload.email) hashed (payload.name.getD "")
    let token := create_access_token cfg now created.1 (pyLower payload.email) none
    let logged := create_activity_document created.2 now created.1 "signup" (some client_host)
    .ok ({ access_token := token, token_type := "bearer", csrf_token := csrf }, logged.2)

/-- `login` (lines 93-101).  A passlib `UnknownHashError` escaping
`verify_password` is uncaught in the handler and surfaces as the hosting
framework's HTTP 500 response. -/
def login (cfg : Config) (now : Int) (csrf : String) (client_host : Option String)
    (s : Store) (username password : String) : Except HTTPException (TokenResponse × Store) :=
  match s.users.find? (fun u => u.email == pyLower username) with
  | none => .error { status_code := 400, detail := "Incorrect email or password" }
  | some user =>
    match verify_password password user.password with
    | .error _ => .error { status_code := 500, detail := "Internal Server Error" }
    | .ok false => .error { status_code := 400, detail := "Incorrect email or password" }
    | .ok true =>
      let token := create_access_token cfg now user.id user.email none
      let logged := create_activity_document s now user.id "login" client_host
      .ok ({ access_token := token, token_type := "bearer", csrf_token := csrf }, logged.2)

/-- `forgot_password` (lines 104-113).  `tok` is the fresh
`secrets.token_urlsafe(32)`; the record expires one hour after issuance. -/
def forgot_password (now : Int) (tok : String) (s : Store) (email : String) :
    (String × Option String) × Store :=
  match s.users.find? (fun u => u.email == pyLower email) with
  | some user =>
    let created := create_reset_document s now user.id tok (now + 3600)
    (("Reset email sent", some tok), created.2)
  | none => (("If an account exists, a reset email has been sent", none), s)

/-- Python `rec.get("expires_at") and rec["expires_at"] < datetime.utcnow()`
(line 122): a record with no expiry is never considered expired. -/
def resetExpired (rec : ResetRecord) (now : Int) : Bool :=
  match rec.expires_at with
  | some e => decide (e < now)
  | none => false

/-- `reset_password` (lines 116-128). -/
def reset_password (now : Int) (salt : Nat) (s : Store) (payload : ResetPasswordRequest) :
    Except HTTPException (String × Store) :=
  match (s.passwordreset.filter (fun r => r.token == payload.token)).take 1 with
  | [] => .error { status_code := 400, detail := "Invalid token" }
  | rec :: _ =>
    if resetExpired rec now then
      .error { status_code := 400, detail := "Token expired" }
    else
      let hashed := get_password_hash payload.new_password salt
      .ok ("Password updated",
           { s with users := update_user_password s.users rec.user_id hashed now })

/-- `admin_overview` (lines 138-144), with the `Depends(get_current_user)`
resolution inlined; `get_documents(..., limit=1000)` returns at most the
first 1000 documents in natural order. -/
def admin_overview (cfg : Config) (now : Int) (s : Store) (token : RawToken) :
    Except HTTPException (List User × List Activity) :=
  match get_current_user cfg now s token with
  | .error e => .error e
  | .ok current =>
    if is_admin cfg current then
      .ok (s.users.take 1000, s.activity.take 1000)
    else .error { status_code := 403, detail := "Access denied" }

/-! ## Text generation service (src/main.py) -/

/-- The external provider call in `ai_generate`: an effect modelled as a
function from the prompt to either a raised exception (`none`) or the
response's optional `message.content`. -/
structure OpenAIClient where
  complete : String → Option (Option String)

/-- `get_openai_client` (src/main.py lines 55-64): `None` without an API
key; `import_ok` stands for the guarded import and client construction
succeeding, `mk` for `OpenAI(api_key=...)`. -/
def get_openai_client (api_key : Option String) (import_ok : Bool)
    (mk : String → OpenAIClient) : Option OpenAIClient :=
  match api_key with
  | none => none
  | some key => if import_ok then some (mk key) else none

/-- The local fallback template built at src/main.py lines 85-94. -/
def ai_fallback (prompt : String) : String :=
  "[AI Fallback] " ++ String.intercalate "\n"
    ["Thanks for trying PortfolioPal!",
     "This is a locally generated sample response because no AI key was detected.",
     "Add OPENAI_API_KEY to enable real AI results.",
     "\n---\n",
     prompt.take 1000]

/-- `ai_generate` (src/main.py lines 67-94): use the provider when a client
exists and the call does not raise; otherwise fall through to the local
template. -/
def ai_generate (client : Option OpenAIClient) (prompt : String) : String :=
  match client with
  | some c =>
    match c.complete prompt with
    | some (some content) => content
    | some none => ""
    | none => ai_fallback prompt
  | none => ai_fallback prompt

/-- The disclaimer line of the fallback template. -/
def fallbackDisclaimer : String :=
  "This is a locally generated sample response because no AI key was detected."

/-- The fallback template up to the echoed prompt. -/
def fallbackHeader : String :=
  "[AI Fallback] Thanks for trying PortfolioPal!\nThis is a locally generated sample response because no AI key was detected.\nAdd OPENAI_API_KEY to enable real AI results.\n\n---\n\n"

/-- Request body of the backend's `POST /api/ai/project-writer`
(src/backend/schemas.py `ProjectInput`, with its defaults applied by
pydantic). -/
structure ProjectInput where
  title : String
  description : String
  technologies : List String
  audience : String
  tone : String
deriving Repr, DecidableEq

/-- `project_writer` (src/backend/main.py lines 157-160): a fixed local
template assembled from the request fields; no provider is consulted. -/
def project_writer (payload : ProjectInput) : String :=
  "Project: " ++ payload.title ++ "\nAudience: " ++ payload.audience ++
  "\nTone: " ++ payload.tone ++ "\nTech: " ++ String.intercalate ", " payload.technologies ++
  "\n\n" ++ payload.description ++ "\n\nKey Points:\n- Impact\n- Challenges\n- Results"

/-- Substring occurrence, as Python's `in` on strings. -/
def strContains (haystack needle : String) : Bool :=
  (List.range (haystack.data.length + 1)).any
    (fun i => needle.data.isPrefixOf (haystack.data.drop i))

/-! ## Sample fixtures used by concrete instantiations -/

def emptyStore : Store :=
  { users := [], activity := [], passwordreset := [], nextId := 0 }

/-- The configuration built from the environment defaults of
src/backend/main.py lines 22-25. -/
def devConfig : Config :=
  loadConfig "dev-secret-change-me" 60 "myemail@domain.com"

/-! ## Helper lemmas -/

/-- The fallback template is the fixed header followed by the first 1000
characters of the prompt. -/
theorem ai_fallback_eq (p : String) : ai_fallback p = fallbackHeader ++ p.take 1000 := by
  rw [ai_fallback]
  show "[AI Fallback] " ++ String.intercalate.go "Thanks for trying PortfolioPal!" "\n"
      ["This is a locally generated sample response because no AI key was detected.",
       "Add OPENAI_API_KEY to enable real AI results.", "\n---\n", p.take 1000] = _
  rw [String.intercalate.go, String.intercalate.go, String.intercalate.go,
    String.intercalate.go, String.intercalate.go]
  rw [← String.append_assoc]
  congr 1

/-- A token issued under a secret decodes under the same secret to its own
payload, as long as its expiry (when present) has not passed. -/
theorem jwtDecode_encode (secret : String) (now : Int) (p : JwtPayload)
    (hok : ∀ e, p.exp = some e → ¬ e < now) :
    jwtDecode secret now (jwtEncode secret p) = .ok p := by
  rw [jwtEncode, jwtDecode]
  rw [if_pos rfl]
  cases hex : p.exp with
  | none => rfl
  | some e =>
    show (if e < now then Except.error JWTError.expiredSignature else Except.ok p) = Except.ok p
    rw [if_neg (hok e hex)]

/-- The idealized digest is collision-free for a fixed salt. -/
theorem bcryptDigest_inj {p q : String} {salt : Nat}
    (h : bcryptDigest p salt = bcryptDigest q salt) : p = q := by
  unfold bcryptDigest at h
  have h2 := congrArg String.data h
  rw [String.data_append, String.data_append, String.data_append, String.data_append] at h2
  rw [List.append_assoc, List.append_assoc] at h2
  exact String.ext (List.append_cancel_left (List.append_cancel_left h2))

/-! ## C1: uniform rejection of bad session tokens -/

/-- The failure causes named for session verification: a token that does not
parse, a signature that does not verify under the server secret, a payload
missing the `user_id` or `email` claim, or an expiry in the past. -/
def sessionTokenBad (secret : String) (now : Int) (t : RawToken) : Prop :=
  (∃ raw, t = .malformed raw) ∨
  (∃ p sig, t = .signed p sig ∧ sig ≠ hmacSign secret p) ∨
  (∃ p sig, t = .signed p sig ∧ (p.user_id = none ∨ p.email = none)) ∨
  (∃ p sig e, t = .signed p sig ∧ p.exp = some e ∧ e < now)

/-- Decoding succeeds only for a structurally valid token whose signature
was produced from the decoded payload under the given secret and whose
expiry, if present, is not in the past. -/
theorem jwtDecode_ok_inversion {secret : String} {now : Int} {t : RawToken} {p : JwtPayload}
    (h : jwtDecode secret now t = .ok p) :
    ∃ sig, t = .signed p sig ∧ sig = hmacSign secret p ∧
      ∀ e, p.exp = some e → ¬ e < now := by
  cases t with
  | malformed raw => exact absurd h (by simp [jwtDecode])
  | signed q sig =>
    simp only [jwtDecode] at h
    split at h
    · next hsig =>
      split at h
      · next e hex =>
        split at h
        · cases h
        · next hlt =>
          cases h
          exact ⟨sig, rfl, hsig, fun e' he' => by rw [hex] at he'; cases he'; exact hlt⟩
      · next hex =>
        cases h
        exact ⟨sig, rfl, hsig, fun e he => by rw [hex] at he; cases he⟩
    · cases h

/-- `get_current_user` either succeeds or raises exactly
`credentials_exception`; no other error value exists. -/
theorem get_current_user_error_unique (cfg : Config) (now : Int) (s : Store) (t : RawToken) :
    get_current_user cfg now s t = .error credentials_exception ∨
    ∃ u, get_current_user cfg now s t = .ok u := by
  unfold get_current_user
  split
  · exact Or.inl rfl
  · split
    · split
      · exact Or.inr ⟨_, rfl⟩
      · exact Or.inl rfl
    · exact Or.inl rfl

/-- Session verification succeeds only when the token is structurally valid,
its signature verifies under the server secret, its payload carries both the
`user_id` and `email` claims, and its expiry has not passed. -/
theorem get_current_user_ok_inversion {cfg : Config} {now : Int} {s : Store} {t : RawToken}
    {u : User} (h : get_current_user cfg now s t = .ok u) :
    ∃ p sig, t = .signed p sig ∧ sig = hmacSign cfg.SECRET_KEY p ∧
      p.user_id ≠ none ∧ p.email ≠ none ∧ ∀ e, p.exp = some e → ¬ e < now := by
  unfold get_current_user at h
  split at h
  · cases h
  · next payload hdec =>
    obtain ⟨sig, rfl, hsig, hexp⟩ := jwtDecode_ok_inversion hdec
    split at h
    · next uid em hui hem =>
      exact ⟨payload, sig, rfl, hsig, by rw [hui]; simp, by rw [hem]; simp, hexp⟩
    · cases h

/-- C1: every session token whose signature does not verify under the server
secret, or whose structure is malformed, or whose payload lacks `user_id` or
`email`, or whose expiry has passed, is rejected by `get_current_user` with
the one `credentials_exception` (HTTP 401), for every store and every
claimed payload, so the caller cannot distinguish the failure causes. -/
theorem get_current_user_uniform_unauthorized (cfg : Config) (now : Int) (s : Store)
    (t : RawToken) (h : sessionTokenBad cfg.SECRET_KEY now t) :
    get_current_user cfg now s t = .error credentials_exception := by
  rcases get_current_user_error_unique cfg now s t with he | ⟨u, hu⟩
  · exact he
  · exfalso
    obtain ⟨p, sig, rfl, hsig, hui, hem, hexp⟩ := get_current_user_ok_inversion hu
    rcases h with ⟨raw, ht⟩ | ⟨p', sig', ht, hbad⟩ | ⟨p', sig', ht, hbad⟩ |
      ⟨p', sig', e, ht, he1, he2⟩
    · exact RawToken.noConfusion ht
    · injection ht with h1 h2
      subst h1; subst h2
      exact hbad hsig
    · injection ht with h1 h2
      subst h1
      rcases hbad with hb | hb
      · exact hui hb
      · exact hem hb
    · injection ht with h1 h2
      subst h1
      exact hexp e he1 he2

/-- Witness for C1 at a concrete input: an unparseable bearer string is
rejected with the 401 `credentials_exception`. -/
theorem get_current_user_uniform_unauthorized_witness :
    sessionTokenBad devConfig.SECRET_KEY 0 (.malformed "garbage") ∧
    get_current_user devConfig 0 emptyStore (.malformed "garbage") =
      .error credentials_exception :=
  ⟨Or.inl ⟨"garbage", rfl⟩,
   get_current_user_uniform_unauthorized devConfig 0 emptyStore (.malformed "garbage")
     (Or.inl ⟨"garbage", rfl⟩)⟩

/-! ## C7: verification on malformed hash strings -/

/-- C7 counterexample: with a malformed (here: empty, hence unidentifiable)
stored hash string, `verify_password` raises passlib's `UnknownHashError`
instead of returning false, so the exception propagates to the caller. -/
theorem verify_password_malformed_raises :
    verify_password "password123" (.unidentified "") = .error .unknownHash ∧
    verify_password "password123" (.unidentified "") ≠ .ok false :=
  ⟨rfl, fun h => Except.noConfusion h⟩

/-- C7 amended: for every password and every hash string passlib cannot
identify as a bcrypt hash, `verify_password` raises `UnknownHashError`
(which the handlers do not catch) rather than returning false. -/
theorem verify_password_unidentified_error (plain raw : String) :
    verify_password plain (.unidentified raw) = .error .unknownHash := rfl

/-! ## C10: text generation without a configured provider -/

set_option maxRecDepth 8192 in
/-- C10 counterexample: the backend app's `/api/ai/project-writer`
(src/backend/main.py) is a text-generation request served with no provider
configured, yet its result does not contain the fallback disclaimer text
(nor any part of the src/main.py fallback template). -/
theorem project_writer_lacks_fallback_disclaimer :
    strContains
      (project_writer { title := "Chess Engine", description := "A chess engine in Rust.",
                        technologies := ["Rust"], audience := "Hiring managers",
                        tone := "professional" })
      fallbackDisclaimer = false := by decide

/-- C10 amended: for requests answered by `ai_generate` (src/main.py) with
no API key configured, the result is the deterministic fallback template:
the literal disclaimer followed by the first 1000 characters of the prompt. -/
theorem ai_generate_no_key_fallback (import_ok : Bool) (mk : String → OpenAIClient)
    (prompt : String) :
    ai_generate (get_openai_client none import_ok mk) prompt =
      ("[AI Fallback] Thanks for trying PortfolioPal!\n" ++ fallbackDisclaimer ++
        "\nAdd OPENAI_API_KEY to enable real AI results.\n\n---\n\n") ++ prompt.take 1000 := by
  show ai_fallback prompt = _
  rw [ai_fallback_eq]
  congr 1

/-! ## C2: fresh-email signup -/

/-- C2: for every signup request with a validly shaped email not already
registered (under lowercase normalization) and a password of at least 8
characters, exactly one User record is appended, carrying the
store-assigned id and the lowercase-normalized email, and the returned
session token decodes (at any time up to its expiry) to exactly that id and
normalized email. -/
theorem signup_fresh_email_creates_one_user (cfg : Config) (now : Int) (salt : Nat)
    (csrf client_host : String) (s : Store) (payload : UserCreate)
    (hvalid : emailShapeOk payload.email = true)
    (hlen : 8 ≤ payload.password.length)
    (hfresh : s.users.find? (fun u => u.email == (pyLower payload.email)) = none) :
    ∃ resp s',
      signup cfg now salt csrf client_host s payload = .ok (resp, s') ∧
      s'.users = s.users ++
        [{ id := s.nextId, email := (pyLower payload.email),
           password := get_password_hash payload.password salt,
           name := payload.name.getD "", created_at := now, updated_at := now }] ∧
      ∀ t : Int, t ≤ now + cfg.ACCESS_TOKEN_EXPIRE_MINUTES * 60 →
        jwtDecode cfg.SECRET_KEY t resp.access_token =
          .ok { user_id := some s.nextId, email := some (pyLower payload.email),
                exp := some (now + cfg.ACCESS_TOKEN_EXPIRE_MINUTES * 60) } := by
  unfold signup
  rw [hfresh]
  refine ⟨_, _, rfl, rfl, ?_⟩
  intro t ht
  exact jwtDecode_encode cfg.SECRET_KEY t
    { user_id := some s.nextId, email := some (pyLower payload.email),
      exp := some (now + cfg.ACCESS_TOKEN_EXPIRE_MINUTES * 60) }
    (fun e he => by cases he; exact not_lt.mpr ht)

/-- Witness for C2: signing up `A@x.com` on the empty store creates the one
user record and the token decodes to id 0 and `a@x.com`. -/
theorem signup_fresh_email_creates_one_user_witness :
    emailShapeOk "A@x.com" = true ∧
    8 ≤ ("password123" : String).length ∧
    emptyStore.users.find? (fun u => u.email == pyLower "A@x.com") = none ∧
    ∃ resp s',
      signup devConfig 0 3 "csrf" "1.2.3.4" emptyStore
        { email := "A@x.com", password := "password123", name := none } = .ok (resp, s') ∧
      s'.users = emptyStore.users ++
        [{ id := emptyStore.nextId, email := pyLower "A@x.com",
           password := get_password_hash "password123" 3,
           name := (none : Option String).getD "", created_at := 0, updated_at := 0 }] ∧
      ∀ t : Int, t ≤ 0 + devConfig.ACCESS_TOKEN_EXPIRE_MINUTES * 60 →
        jwtDecode devConfig.SECRET_KEY t resp.access_token =
          .ok { user_id := some emptyStore.nextId, email := some (pyLower "A@x.com"),
                exp := some (0 + devConfig.ACCESS_TOKEN_EXPIRE_MINUTES * 60) } :=
  ⟨by decide, by decide, rfl,
   signup_fresh_email_creates_one_user devConfig 0 3 "csrf" "1.2.3.4" emptyStore
     { email := "A@x.com", password := "password123", name := none }
     (by decide) (by decide) rfl⟩

/-! ## C3: login failure uniformity and success -/

/-- C3: a login whose normalized email matches no user and a login whose
password verification completes with false produce the very same
`{400, "Incorrect email or password"}` response, so the caller cannot tell
the two apart; and for every stored user found under the submitted email
whose password verifies, login succeeds with a session token that decodes
(up to its expiry) to that user's id and stored email. -/
theorem login_uniform_failure_and_success (cfg : Config) (now : Int) (csrf : String)
    (client_host : Option String) (s : Store) (username password : String) :
    (s.users.find? (fun v => v.email == pyLower username) = none →
      login cfg now csrf client_host s username password =
        .error { status_code := 400, detail := "Incorrect email or password" }) ∧
    (∀ u, s.users.find? (fun v => v.email == pyLower username) = some u →
      verify_password password u.password = .ok false →
      login cfg now csrf client_host s username password =
        .error { status_code := 400, detail := "Incorrect email or password" }) ∧
    (∀ u, s.users.find? (fun v => v.email == pyLower username) = some u →
      verify_password password u.password = .ok true →
      ∃ resp s', login cfg now csrf client_host s username password = .ok (resp, s') ∧
        ∀ t : Int, t ≤ now + cfg.ACCESS_TOKEN_EXPIRE_MINUTES * 60 →
          jwtDecode cfg.SECRET_KEY t resp.access_token =
            .ok { user_id := some u.id, email := some u.email,
                  exp := some (now + cfg.ACCESS_TOKEN_EXPIRE_MINUTES * 60) }) := by
  refine ⟨?_, ?_, ?_⟩
  · intro hnone
    unfold login
    rw [hnone]
  · intro u hu hv
    unfold login
    rw [hu]
    simp only [hv]
  · intro u hu hv
    unfold login
    rw [hu]
    simp only [hv]
    refine ⟨_, _, rfl, ?_⟩
    intro t ht
    exact jwtDecode_encode cfg.SECRET_KEY t
      { user_id := some u.id, email := some u.email,
        exp := some (now + cfg.ACCESS_TOKEN_EXPIRE_MINUTES * 60) }
      (fun e he => by cases he; exact not_lt.mpr ht)

/-- The user record created by the witness signup scenario. -/
def aliceUser : User :=
  { id := 0, email := "a@x.com", password := get_password_hash "password123" 3,
    name := "", created_at := 0, updated_at := 0 }

/-- A one-user store as produced by signing up `aliceUser`. -/
def aliceStore : Store :=
  { users := [aliceUser], activity := [], passwordreset := [], nextId := 1 }

/-- Witness for C3: on a one-user store, an unknown email and a wrong
password yield the identical 400 response, and the correct password yields
a token decoding to the user's id. -/
theorem login_uniform_failure_and_success_witness :
    (aliceStore.users.find? (fun v => v.email == pyLower "nobody@x.com") = none ∧
      login devConfig 0 "c" none aliceStore "nobody@x.com" "password123" =
        .error { status_code := 400, detail := "Incorrect email or password" }) ∧
    (aliceStore.users.find? (fun v => v.email == pyLower "A@x.com") = some aliceUser ∧
      verify_password "wrongpass" aliceUser.password = .ok false ∧
      login devConfig 0 "c" none aliceStore "A@x.com" "wrongpass" =
        .error { status_code := 400, detail := "Incorrect email or password" }) ∧
    (verify_password "password123" aliceUser.password = .ok true ∧
      ∃ resp s', login devConfig 0 "c" none aliceStore "A@x.com" "password123" = .ok (resp, s') ∧
        ∀ t : Int, t ≤ 0 + devConfig.ACCESS_TOKEN_EXPIRE_MINUTES * 60 →
          jwtDecode devConfig.SECRET_KEY t resp.access_token =
            .ok { user_id := some aliceUser.id, email := some aliceUser.email,
                  exp := some (0 + devConfig.ACCESS_TOKEN_EXPIRE_MINUTES * 60) }) :=
  ⟨⟨rfl,
    (login_uniform_failure_and_success devConfig 0 "c" none aliceStore "nobody@x.com"
      "password123").1 rfl⟩,
   ⟨rfl, rfl,
    (login_uniform_failure_and_success devConfig 0 "c" none aliceStore "A@x.com"
      "wrongpass").2.1 aliceUser rfl rfl⟩,
   ⟨rfl,
    (login_uniform_failure_and_success devConfig 0 "c" none aliceStore "A@x.com"
      "password123").2.2 aliceUser rfl rfl⟩⟩

/-! ## C4: reset-token rejection conditions -/

/-- When the token lookup finds a record and that record is not (strictly)
expired, `reset_password` succeeds and rewrites only the matching user's
password hash and update timestamp. -/
theorem reset_password_success_of (now : Int) (salt : Nat) (s : Store)
    (payload : ResetPasswordRequest) (rec : ResetRecord)
    (hfind : (s.passwordreset.filter (fun r => r.token == payload.token)).take 1 = [rec])
    (hexp : resetExpired rec now = false) :
    reset_password now salt s payload =
      .ok ("Password updated",
        { s with users := update_user_password s.users rec.user_id
                  (get_password_hash payload.new_password salt) now }) := by
  unfold reset_password
  rw [hfind]
  simp only [hexp]
  rfl

/-- C4 (amended): `reset_password` answers 400 exactly when the token lookup
finds no record, or when the first record holding the token has an expiry
strictly earlier than the current time; when a record exists whose expiry
has not strictly passed, the request is accepted.  (The two rejection
causes carry the distinct details "Invalid token" and "Token expired".) -/
theorem reset_password_reject_cases (now : Int) (salt : Nat) (s : Store)
    (payload : ResetPasswordRequest) :
    ((s.passwordreset.filter (fun r => r.token == payload.token)).take 1 = [] →
      reset_password now salt s payload =
        .error { status_code := 400, detail := "Invalid token" }) ∧
    (∀ rec e, (s.passwordreset.filter (fun r => r.token == payload.token)).take 1 = [rec] →
      rec.expires_at = some e → e < now →
      reset_password now salt s payload =
        .error { status_code := 400, detail := "Token expired" }) ∧
    (∀ rec, (s.passwordreset.filter (fun r => r.token == payload.token)).take 1 = [rec] →
      resetExpired rec now = false →
      reset_password now salt s payload =
        .ok ("Password updated",
          { s with users := update_user_password s.users rec.user_id
                    (get_password_hash payload.new_password salt) now })) := by
  refine ⟨?_, ?_, ?_⟩
  · intro hnone
    unfold reset_password
    rw [hnone]
  · intro rec e hfind hex hlt
    unfold reset_password
    have hexp : resetExpired rec now = true := by
      unfold resetExpired
      rw [hex]
      simpa using hlt
    rw [hfind]
    simp only [hexp]
    rfl
  · intro rec hfind hexp
    exact reset_password_success_of now salt s payload rec hfind hexp

/-- A store holding one reset record issued at time 0, hence expiring at
3600 (one hour later), as `forgot_password` creates them. -/
def boundaryResetStore : Store :=
  { users := [], activity := [],
    passwordreset := [{ id := 0, user_id := 5, token := "tok", expires_at := some 3600,
                        created_at := 0, updated_at := 0 }],
    nextId := 1 }

/-- C4 counterexample: a reset token submitted exactly at its 1-hour expiry
instant (current time = expiry timestamp = 3600) is accepted, not rejected:
the code only rejects when `expires_at < now` holds strictly.  One second
later the same token is rejected. -/
theorem reset_password_accepts_at_expiry_instant :
    reset_password 3600 7 boundaryResetStore { token := "tok", new_password := "newpassword1" } =
      .ok ("Password updated", boundaryResetStore) ∧
    reset_password 3601 7 boundaryResetStore { token := "tok", new_password := "newpassword1" } =
      .error { status_code := 400, detail := "Token expired" } :=
  ⟨rfl, rfl⟩

/-- Witness for C4: the three rejection/acceptance cases at concrete inputs
on the one-record store. -/
theorem reset_password_reject_cases_witness :
    ((boundaryResetStore.passwordreset.filter
        (fun r => r.token == ("zzz" : String))).take 1 = [] ∧
      reset_password 0 7 boundaryResetStore { token := "zzz", new_password := "newpassword1" } =
        .error { status_code := 400, detail := "Invalid token" }) ∧
    (reset_password 5000 7 boundaryResetStore { token := "tok", new_password := "newpassword1" } =
        .error { status_code := 400, detail := "Token expired" }) ∧
    (reset_password 10 7 boundaryResetStore { token := "tok", new_password := "newpassword1" } =
        .ok ("Password updated", boundaryResetStore)) :=
  ⟨⟨rfl,
    (reset_password_reject_cases 0 7 boundaryResetStore
      { token := "zzz", new_password := "newpassword1" }).1 rfl⟩,
   (reset_password_reject_cases 5000 7 boundaryResetStore
      { token := "tok", new_password := "newpassword1" }).2.1
      { id := 0, user_id := 5, token := "tok", expires_at := some 3600,
        created_at := 0, updated_at := 0 } 3600 rfl rfl (by decide),
   (reset_password_reject_cases 10 7 boundaryResetStore
      { token := "tok", new_password := "newpassword1" }).2.2
      { id := 0, user_id := 5, token := "tok", expires_at := some 3600,
        created_at := 0, updated_at := 0 } rfl rfl⟩

/-! ## C5: successful reset rotates the credential -/

/-- `update_one` rewrites exactly the first `_id` match: the record found by
`find?` reappears with the new hash and timestamp. -/
theorem update_user_password_mem {l : List User} {uid : Nat} {u : User}
    (hu : l.find? (fun v => v.id == uid) = some u) (hashed : HashStr) (now : Int) :
    { u with password := hashed, updated_at := now } ∈ update_user_password l uid hashed now := by
  induction l with
  | nil => exact absurd hu (by simp)
  | cons v rest ih =>
    by_cases hv : (v.id == uid) = true
    · simp only [List.find?, hv] at hu
      cases hu
      unfold update_user_password
      rw [if_pos hv]
      exact List.mem_cons_self _ _
    · have hv' : (v.id == uid) = false := by simpa using hv
      simp only [List.find?, hv'] at hu
      unfold update_user_password
      rw [if_neg hv]
      exact List.mem_cons_of_mem v (ih hu)

/-- C5: for every user holding an unexpired reset record, submitting that
record's token with a new password (of at least 8 characters) succeeds,
and afterwards the user's stored record carries the fresh hash and the
refreshed update timestamp, against which the new password verifies and any
other (in particular the old) password no longer verifies. -/
theorem reset_password_rotates_credential (now : Int) (salt : Nat) (s : Store)
    (payload : ResetPasswordRequest) (rec : ResetRecord) (u : User)
    (hfind : (s.passwordreset.filter (fun r => r.token == payload.token)).take 1 = [rec])
    (hexp : resetExpired rec now = false)
    (hlen : 8 ≤ payload.new_password.length)
    (hu : s.users.find? (fun v => v.id == rec.user_id) = some u) :
    ∃ s', reset_password now salt s payload = .ok ("Password updated", s') ∧
      { u with password := get_password_hash payload.new_password salt,
               updated_at := now } ∈ s'.users ∧
      verify_password payload.new_password
        (get_password_hash payload.new_password salt) = .ok true ∧
      ∀ old, old ≠ payload.new_password →
        verify_password old (get_password_hash payload.new_password salt) = .ok false := by
  refine ⟨_, reset_password_success_of now salt s payload rec hfind hexp, ?_, ?_, ?_⟩
  · exact update_user_password_mem hu (get_password_hash payload.new_password salt) now
  · show Except.ok (bcryptDigest payload.new_password salt ==
        bcryptDigest payload.new_password salt) = Except.ok true
    rw [beq_self_eq_true]
  · intro old hne
    show Except.ok (bcryptDigest old salt ==
        bcryptDigest payload.new_password salt) = Except.ok false
    have hd : (bcryptDigest old salt == bcryptDigest payload.new_password salt) = false := by
      rw [beq_eq_false_iff_ne]
      exact fun hcol => hne (bcryptDigest_inj hcol)
    rw [hd]

/-- A store with one user and one live reset record for that user. -/
def resetScenarioStore : Store :=
  { users := [aliceUser], activity := [],
    passwordreset := [{ id := 1, user_id := 0, token := "reset-tok", expires_at := some 3600,
                        created_at := 0, updated_at := 0 }],
    nextId := 2 }

/-- Witness for C5: resetting `aliceUser`'s password before expiry installs
a hash that verifies the new password and refuses the old one. -/
theorem reset_password_rotates_credential_witness :
    (resetScenarioStore.passwordreset.filter
        (fun r => r.token == ("reset-tok" : String))).take 1 =
      [{ id := 1, user_id := 0, token := "reset-tok", expires_at := some 3600,
         created_at := 0, updated_at := 0 }] ∧
    8 ≤ ("newpassword1" : String).length ∧
    resetScenarioStore.users.find? (fun v => v.id == (0 : Nat)) = some aliceUser ∧
    ∃ s', reset_password 100 9 resetScenarioStore
        { token := "reset-tok", new_password := "newpassword1" } =
        .ok ("Password updated", s') ∧
      { aliceUser with password := get_password_hash "newpassword1" 9,
                       updated_at := 100 } ∈ s'.users ∧
      verify_password "newpassword1" (get_password_hash "newpassword1" 9) = .ok true ∧
      ∀ old, old ≠ "newpassword1" →
        verify_password old (get_password_hash "newpassword1" 9) = .ok false :=
  ⟨rfl, by decide, rfl,
   reset_password_rotates_credential 100 9 resetScenarioStore
     { token := "reset-tok", new_password := "newpassword1" }
     { id := 1, user_id := 0, token := "reset-tok", expires_at := some 3600,
       created_at := 0, updated_at := 0 }
     aliceUser rfl rfl (by decide) rfl⟩

/-! ## C6: reset records are never consumed -/

/-- The store state after one `reset_password` request (the error responses
leave the store untouched, as the handler raises before writing). -/
def applyReset (now : Int) (salt : Nat) (payload : ResetPasswordRequest) (s : Store) : Store :=
  match reset_password now salt s payload with
  | .ok r => r.2
  | .error _ => s

/-- `reset_password` never writes to the passwordreset collection: a
successful reset returns a store with the same reset records. -/
theorem reset_password_ok_passwordreset {now : Int} {salt : Nat} {s : Store}
    {payload : ResetPasswordRequest} {m : String} {s' : Store}
    (h : reset_password now salt s payload = .ok (m, s')) :
    s'.passwordreset = s.passwordreset := by
  unfold reset_password at h
  split at h
  · cases h
  · split at h
    · cases h
    · cases h
      rfl

/-- One request, successful or not, leaves the reset records unchanged. -/
theorem applyReset_passwordreset (now : Int) (salt : Nat)
    (payload : ResetPasswordRequest) (s : Store) :
    (applyReset now salt payload s).passwordreset = s.passwordreset := by
  unfold applyReset
  cases h : reset_password now salt s payload with
  | ok r => exact reset_password_ok_passwordreset (by rw [h])
  | error e => rfl

/-- C6: a successful reset leaves the reset record itself unchanged (the
collection of reset records is untouched, so the record is neither deleted
nor marked consumed), and therefore resubmitting the same token while it
remains unexpired succeeds after any number n of previous submissions. -/
theorem reset_record_not_consumed (now : Int) (salt : Nat) (s : Store)
    (payload : ResetPasswordRequest) (rec : ResetRecord)
    (hfind : (s.passwordreset.filter (fun r => r.token == payload.token)).take 1 = [rec])
    (hexp : resetExpired rec now = false) :
    ∀ n : Nat,
      ((applyReset now salt payload)^[n] s).passwordreset = s.passwordreset ∧
      ∃ s', reset_password now salt ((applyReset now salt payload)^[n] s) payload =
        .ok ("Password updated", s') := by
  intro n
  induction n with
  | zero => exact ⟨rfl, _, reset_password_success_of now salt s payload rec hfind hexp⟩
  | succ k ih =>
    have hres : ((applyReset now salt payload)^[k + 1] s).passwordreset = s.passwordreset := by
      rw [Function.iterate_succ_apply']
      rw [applyReset_passwordreset]
      exact ih.1
    refine ⟨hres, _, reset_password_success_of now salt
      ((applyReset now salt payload)^[k + 1] s) payload rec ?_ hexp⟩
    rw [hres]
    exact hfind

/-- Witness for C6: on the concrete one-record store the token stays valid
after three submissions. -/
theorem reset_record_not_consumed_witness :
    (((applyReset 100 9 { token := "reset-tok", new_password := "newpassword1" })^[3]
        resetScenarioStore).passwordreset = resetScenarioStore.passwordreset) ∧
    ∃ s', reset_password 100 9
        ((applyReset 100 9 { token := "reset-tok", new_password := "newpassword1" })^[3]
          resetScenarioStore)
        { token := "reset-tok", new_password := "newpassword1" } =
        .ok ("Password updated", s') :=
  reset_record_not_consumed 100 9 resetScenarioStore
    { token := "reset-tok", new_password := "newpassword1" }
    { id := 1, user_id := 0, token := "reset-tok", expires_at := some 3600,
      created_at := 0, updated_at := 0 }
    rfl rfl 3

/-! ## C8: duplicate signup is rejected -/

/-- The store visible after an auth endpoint returns: on an error response
the handler raised before writing, so the store is the one it started with. -/
def storeAfter (r : Except HTTPException (TokenResponse × Store)) (s : Store) : Store :=
  match r with
  | .ok p => p.2
  | .error _ => s

/-- A successful signup appends exactly one user record, whose email is the
lowercase-normalized requested email. -/
theorem signup_ok_users {cfg : Config} {now : Int} {salt : Nat} {csrf client_host : String}
    {s : Store} {payload : UserCreate} {resp : TokenResponse} {s' : Store}
    (h : signup cfg now salt csrf client_host s payload = .ok (resp, s')) :
    s'.users = s.users ++
      [{ id := s.nextId, email := pyLower payload.email,
         password := get_password_hash payload.password salt,
         name := payload.name.getD "", created_at := now, updated_at := now }] := by
  unfold signup at h
  split at h
  · cases h
  · cases h
    rfl

/-- C8: after a successful signup, a second signup with the same email in
any letter case is rejected with the 400 "Email already registered"
response, and the user collection is left unchanged (no second record). -/
theorem signup_duplicate_email_rejected (cfg : Config) (now₁ now₂ : Int) (salt₁ salt₂ : Nat)
    (csrf₁ csrf₂ host₁ host₂ : String) (s : Store) (p₁ p₂ : UserCreate)
    (resp : TokenResponse) (s₁ : Store)
    (h1 : signup cfg now₁ salt₁ csrf₁ host₁ s p₁ = .ok (resp, s₁))
    (hsame : pyLower p₂.email = pyLower p₁.email) :
    signup cfg now₂ salt₂ csrf₂ host₂ s₁ p₂ =
      .error { status_code := 400, detail := "Email already registered" } ∧
    (storeAfter (signup cfg now₂ salt₂ csrf₂ host₂ s₁ p₂) s₁).users = s₁.users := by
  have husers := signup_ok_users h1
  have hmem : ∃ x ∈ s₁.users, (x.email == pyLower p₂.email) = true := by
    refine ⟨{ id := s.nextId, email := pyLower p₁.email,
              password := get_password_hash p₁.password salt₁,
              name := p₁.name.getD "", created_at := now₁, updated_at := now₁ }, ?_, ?_⟩
    · rw [husers]
      exact List.mem_append_right _ (List.mem_singleton.mpr rfl)
    · rw [hsame]
      exact beq_self_eq_true _
  obtain ⟨w, hw⟩ := Option.isSome_iff_exists.mp (List.find?_isSome.mpr hmem)
  constructor
  · unfold signup
    rw [hw]
  · unfold storeAfter signup
    rw [hw]

/-- The store produced by the witness signup of `A@x.com` (fresh salt 3,
client host `h1`) on the empty store. -/
def aliceSignupStore : Store :=
  { users := [aliceUser],
    activity := [{ id := 1, user_id := 0, type := "signup", ip := some "h1",
                   created_at := 0, updated_at := 0 }],
    passwordreset := [], nextId := 2 }

/-- Witness for C8: after signing up `A@x.com` on the empty store, signing
up `a@X.com` is rejected and adds no user. -/
theorem signup_duplicate_email_rejected_witness :
    signup devConfig 0 3 "c1" "h1" emptyStore
      { email := "A@x.com", password := "password123", name := none } =
      .ok ({ access_token := jwtEncode "dev-secret-change-me"
               { user_id := some 0, email := some "a@x.com", exp := some 3600 },
             token_type := "bearer", csrf_token := "c1" }, aliceSignupStore) ∧
    signup devConfig 5 4 "c2" "h2" aliceSignupStore
      { email := "a@X.com", password := "password456", name := none } =
      .error { status_code := 400, detail := "Email already registered" } ∧
    (storeAfter (signup devConfig 5 4 "c2" "h2" aliceSignupStore
        { email := "a@X.com", password := "password456", name := none })
      aliceSignupStore).users = aliceSignupStore.users :=
  ⟨rfl,
   (signup_duplicate_email_rejected devConfig 0 5 3 4 "c1" "c2" "h1" "h2" emptyStore
     { email := "A@x.com", password := "password123", name := none }
     { email := "a@X.com", password := "password456", name := none }
     { access_token := jwtEncode "dev-secret-change-me"
         { user_id := some 0, email := some "a@x.com", exp := some 3600 },
       token_type := "bearer", csrf_token := "c1" }
     aliceSignupStore rfl rfl).1,
   (signup_duplicate_email_rejected devConfig 0 5 3 4 "c1" "c2" "h1" "h2" emptyStore
     { email := "A@x.com", password := "password123", name := none }
     { email := "a@X.com", password := "password456", name := none }
     { access_token := jwtEncode "dev-secret-change-me"
         { user_id := some 0, email := some "a@x.com", exp := some 3600 },
       token_type := "bearer", csrf_token := "c1" }
     aliceSignupStore rfl rfl).2⟩

/-! ## C9: admin gate -/

/-- C9: `is_admin` holds exactly when the user's lowercased email equals the
(lowercased) configured privileged email; `admin_overview` answers 403 for
every authenticated non-admin user, and for an authenticated admin returns
at most 1000 user records and at most 1000 activity records. -/
theorem admin_gate_semantics (secretEnv : String) (minutesEnv : Int) (adminEnv : String)
    (now : Int) (s : Store) (token : RawToken) :
    (∀ u : User, is_admin (loadConfig secretEnv minutesEnv adminEnv) u = true ↔
        pyLower u.email = pyLower adminEnv) ∧
    (∀ u, get_current_user (loadConfig secretEnv minutesEnv adminEnv) now s token = .ok u →
      is_admin (loadConfig secretEnv minutesEnv adminEnv) u = false →
      admin_overview (loadConfig secretEnv minutesEnv adminEnv) now s token =
        .error { status_code := 403, detail := "Access denied" }) ∧
    (∀ u, get_current_user (loadConfig secretEnv minutesEnv adminEnv) now s token = .ok u →
      is_admin (loadConfig secretEnv minutesEnv adminEnv) u = true →
      ∃ users activity,
        admin_overview (loadConfig secretEnv minutesEnv adminEnv) now s token =
          .ok (users, activity) ∧ users.length ≤ 1000 ∧ activity.length ≤ 1000) := by
  refine ⟨?_, ?_, ?_⟩
  · intro u
    unfold is_admin loadConfig
    exact beq_iff_eq
  · intro u hok hnadm
    unfold admin_overview
    rw [hok]
    simp [hnadm]
  · intro u hok hadm
    unfold admin_overview
    rw [hok]
    simp only [hadm, if_true]
    refine ⟨_, _, rfl, ?_, ?_⟩
    · rw [List.length_take]
      exact min_le_left _ _
    · rw [List.length_take]
      exact min_le_left _ _

def adminUser : User :=
  { id := 0, email := "myemail@domain.com", password := get_password_hash "adminpass123" 5,
    name := "Admin", created_at := 0, updated_at := 0 }

def bobUser : User :=
  { id := 1, email := "b@x.com", password := get_password_hash "password123" 6,
    name := "Bob", created_at := 0, updated_at := 0 }

def adminScenarioStore : Store :=
  { users := [adminUser, bobUser], activity := [], passwordreset := [], nextId := 2 }

/-- A session token for `adminUser` under the development secret. -/
def adminToken : RawToken :=
  jwtEncode "dev-secret-change-me"
    { user_id := some 0, email := some "myemail@domain.com", exp := none }

/-- A session token for `bobUser` under the development secret. -/
def bobToken : RawToken :=
  jwtEncode "dev-secret-change-me" { user_id := some 1, email := some "b@x.com", exp := none }

/-- Witness for C9: on a two-user store the authenticated non-admin gets the
403 response and the configured admin identity gets the bounded overview. -/
theorem admin_gate_semantics_witness :
    (is_admin devConfig adminUser = true ↔
      pyLower adminUser.email = pyLower "myemail@domain.com") ∧
    (get_current_user devConfig 0 adminScenarioStore bobToken = .ok bobUser ∧
     is_admin devConfig bobUser = false ∧
     admin_overview devConfig 0 adminScenarioStore bobToken =
       .error { status_code := 403, detail := "Access denied" }) ∧
    (get_current_user devConfig 0 adminScenarioStore adminToken = .ok adminUser ∧
     is_admin devConfig adminUser = true ∧
     ∃ users activity,
       admin_overview devConfig 0 adminScenarioStore adminToken =
         .ok (users, activity) ∧ users.length ≤ 1000 ∧ activity.length ≤ 1000) :=
  ⟨(admin_gate_semantics "dev-secret-change-me" 60 "myemail@domain.com" 0
      adminScenarioStore bobToken).1 adminUser,
   ⟨rfl, rfl,
    (admin_gate_semantics "dev-secret-change-me" 60 "myemail@domain.com" 0
      adminScenarioStore bobToken).2.1 bobUser rfl rfl⟩,
   ⟨rfl, rfl,
    (admin_gate_semantics "dev-secret-change-me" 60 "myemail@domain.com" 0
      adminScenarioStore adminToken).2.2 adminUser rfl rfl⟩⟩

end PortfolioPal
